import Mathlib

/-!
Verification development for the expression-tree library `src/expr.hpp`
and its driver (`src/unnamed/part_000`).

The library is a polymorphic AST of three node variants:
`const_expr<T>` (a constant), `bin_op_expr<T,A,B>` (a caller-supplied
binary function with a display name and two owned operand subtrees) and
`if_expr<T>` (a conditional holding three raw owning pointers).

Two embeddings are used, both translated from the source:

* a tree-level embedding (`Expr`, `ExprPtr`) for the value semantics
  `eval` / `print` / `clone`, with `ExprPtr` modelling the nullable raw
  `expr*` pointers stored by `if_expr` (`null` is a C++ null pointer);
  a caller-supplied function slot has type `A → B → Option T`, with
  `none` standing for a thrown exception or assertion failure (compare
  `unimplemented` in expr.hpp), which `eval` propagates; `evalT`
  additionally records evaluation events, used to show which subtrees
  an evaluation visits;

* a heap-level embedding (`Heap`, `HNode`, `IfFields`) for the
  ownership, copy/move and destruction behaviour of `if_expr`, where
  child pointers are addresses into an explicit heap and destruction
  records every address passed to a non-null `delete`.
-/

namespace ExprSpec

/-- An observable evaluation event: either a constant node was evaluated
(recorded with its rendering) or a binary node invoked its stored
function after both operand evaluations returned. -/
inductive Ev : Type where
  | evalConst (rendering : String) : Ev
  | apply (name : String) : Ev
deriving DecidableEq

mutual

/-- Tree-level embedding of the node hierarchy of expr.hpp
(`const_expr`, lines 44-64; `bin_op_expr`, lines 67-127; `if_expr`,
lines 130-210).  The type index is the C++ template parameter `T`.
`const_expr` carries the ambient `operator<<` of `T` as a bundled
`ToString` instance, mirroring `out << val` (line 58).  The function
slot of `bin_op_expr` is `A → B → Option T`: the stored
`std::function<T(A,B)>` may throw, and `none` models that failure.
`if_expr` stores three raw nullable pointers (lines 133-137), modelled
by `ExprPtr`. -/
inductive Expr : Type → Type 1 where
  | const_expr {T : Type} [inst : ToString T] (val : T) : Expr T
  | bin_op_expr {T A B : Type} (fn : A → B → Option T) (name : String)
      (left_arg : Expr A) (right_arg : Expr B) : Expr T
  | if_expr {T : Type} (cond : ExprPtr Bool)
      (true_branch false_branch : ExprPtr T) : Expr T

/-- A raw `expr<T>*` as stored by `if_expr` (expr.hpp lines 133-137):
either a null pointer or a pointer to a node. -/
inductive ExprPtr : Type → Type 1 where
  | null {T : Type} : ExprPtr T
  | mk {T : Type} (e : Expr T) : ExprPtr T

end

mutual

/-- `eval` of each node variant, translated from expr.hpp:
`const_expr::eval` (lines 53-55) returns the stored value;
`bin_op_expr::eval` (lines 116-118) is
`fn(left_arg->eval(), right_arg->eval())`, so a failure of the left
operand propagates before the right operand runs;
`if_expr::eval` (lines 191-196) is `if(cond) return true_branch->eval();
return false_branch->eval();` — it tests whether the condition POINTER
is non-null and never evaluates the condition subtree. -/
def eval {T : Type} : Expr T → Option T
  | @Expr.const_expr _ _ v => some v
  | .bin_op_expr fn _ l r => do
      let a ← eval l
      let b ← eval r
      fn a b
  | .if_expr c t f =>
      match c with
      | .mk _ => evalPtr t
      | .null => evalPtr f
termination_by structural e => e

/-- Evaluation through a raw pointer: `p->eval()`.  Dereferencing a null
pointer is a crash, modelled as `none`. -/
def evalPtr {T : Type} : ExprPtr T → Option T
  | .null => none
  | .mk e => eval e
termination_by structural p => p

end

/-- `print` of each node variant, translated from expr.hpp:
`const_expr::print` (lines 57-59) writes `out << val`;
`bin_op_expr::print` (lines 120-122) writes
`"(" << *left_arg << " " << name << " " << *right_arg << ")"`;
`if_expr::print` (lines 198-205) writes the literal `"true"` when the
condition pointer is non-null and `"false"` otherwise — it prints none
of its three subtrees. -/
def print {T : Type} : Expr T → String
  | @Expr.const_expr _ i v => @toString _ i v
  | .bin_op_expr _ n l r => "(" ++ print l ++ " " ++ n ++ " " ++ print r ++ ")"
  | .if_expr c _ _ =>
      match c with
      | .mk _ => "true"
      | .null => "false"

/-- `clone` of each node variant, translated from expr.hpp:
`const_expr::clone` (lines 61-63) copies the value;
`bin_op_expr::clone` (lines 124-126) rebuilds the node from
`left_arg->clone()` and `right_arg->clone()`;
`if_expr::clone` (lines 207-209) is `new if_expr(*this)`, and the copy
constructor (lines 151-154) copies the three raw pointers, so at tree
level the clone has exactly the original's three children. -/
def clone {T : Type} : Expr T → Expr T
  | @Expr.const_expr _ i v => @Expr.const_expr _ i v
  | .bin_op_expr fn n l r => .bin_op_expr fn n (clone l) (clone r)
  | .if_expr c t f => .if_expr c t f

mutual

/-- `eval` instrumented with a list of observable events, used to show
WHICH subtrees an evaluation visits: `if_expr::eval` (expr.hpp lines
191-196) evaluates only the branch selected by the condition-pointer
test and never the condition subtree.  Caveat on the `bin_op_expr`
case: the call `fn(left_arg->eval(), right_arg->eval())` (lines
116-118) leaves the two argument evaluations indeterminately sequenced
in C++ — the code guarantees neither left-before-right nor the
converse, and which operand runs when the other throws is likewise
unspecified.  This case therefore records merely ONE admissible
sequencing (the source's textual order); no theorem below relies on
the relative order of the two operand traces, nor on the trace of any
binary node at all.  The value component, which is independent of the
sequencing choice, agrees with `eval` (theorem `evalT_fst`). -/
def evalT {T : Type} : Expr T → Option T × List Ev
  | @Expr.const_expr _ i v => (some v, [Ev.evalConst (@toString _ i v)])
  | .bin_op_expr fn n l r =>
      match evalT l with
      | (none, tl) => (none, tl)
      | (some a, tl) =>
        match evalT r with
        | (none, tr) => (none, tl ++ tr)
        | (some b, tr) => (fn a b, tl ++ tr ++ [Ev.apply n])
  | .if_expr c t f =>
      match c with
      | .mk _ => evalPtrT t
      | .null => evalPtrT f
termination_by structural e => e

/-- Instrumented evaluation through a raw pointer. -/
def evalPtrT {T : Type} : ExprPtr T → Option T × List Ev
  | .null => (none, [])
  | .mk e => evalT e
termination_by structural p => p

end

/-- `unimplemented<N>()` from expr.hpp lines 13-16: crashes with an
assertion failure, modelled as the failing result. -/
def unimplemented {N : Type} : Option N := none

/-- Driver wrapper `int plus(int a, int b) { return a + b; }`
(part_000 line 8), injected into the fallible function slot. -/
def plus (a b : Int) : Option Int := some (a + b)

/-- Driver wrapper `bool equals(int a, int b) { return a == b; }`
(part_000 line 11). -/
def equals (a b : Int) : Option Bool := some (a == b)

/-- Driver wrapper `bool mult(int a, int b) {return a * b;}`
(part_000 line 14).  The declared return type is `bool`, so the product
is converted by the C++ int-to-bool conversion: nonzero becomes true. -/
def mult (a b : Int) : Bool := a * b != 0

/-- `mult` as stored in the driver's
`bin_op_expr<int, int, int>(mult, "*", ...)` (part_000 lines 61-66):
the `std::function<int(int,int)>` slot converts the `bool` result back
to `int`, so the node computes 1 when the product is nonzero, else 0. -/
def multAsInt (a b : Int) : Option Int := some (if mult a b then 1 else 0)

/-- Driver constant `eight` (part_000 line 58). -/
def eight : Expr Int := .const_expr 8

/-- Driver constant `five` (part_000 line 59). -/
def five : Expr Int := .const_expr 5

/-- Driver tree `my_expr` (part_000 lines 61-69):
`(8 * 5) == 40` built with `mult` and `equals`. -/
def my_expr : Expr Bool :=
  .bin_op_expr equals "==" (.bin_op_expr multAsInt "*" eight five) (.const_expr 40)

/-- Driver tree `my_expr_two` (part_000 lines 71-75): the conditional
wrapping `my_expr` with branches "correct" / "incorrect". -/
def my_expr_two : Expr String :=
  .if_expr (.mk my_expr) (.mk (.const_expr "correct")) (.mk (.const_expr "incorrect"))

/-- The condition subtree used in the conditional counterexamples: a
boolean constant `false`. -/
def condFalse : Expr Bool := .const_expr false

/-- Counterexample conditional: condition `false`, true branch the
constant 1, false branch the constant 2, all pointers non-null. -/
def ifCondFalse : Expr Int :=
  .if_expr (.mk condFalse) (.mk (.const_expr 1)) (.mk (.const_expr 2))

/-- A heap address. -/
abbrev Addr := Nat

/-- A heap-allocated expression node, keeping only the ownership
structure of each variant of expr.hpp: a constant owns no children
(lines 44-64), a binary node owns two operands through `unique_ptr`
(lines 76-78), a conditional holds three nullable raw owning pointers
(lines 133-137). -/
inductive HNode : Type where
  | hleaf : HNode
  | hbin (left_arg right_arg : Addr) : HNode
  | hif (cond true_branch false_branch : Option Addr) : HNode
deriving DecidableEq

/-- The heap: the association of live addresses to nodes. -/
abbrev Heap := List (Addr × HNode)

/-- Look up a live node. -/
def lookupH (h : Heap) (a : Addr) : Option HNode :=
  match h with
  | [] => none
  | (b, n) :: rest => if b = a then some n else lookupH rest a

/-- Deallocate one address. -/
def removeH (h : Heap) (a : Addr) : Heap :=
  h.filter (fun p => p.1 != a)

/-- `delete p` on a (possibly null) owning pointer, with fuel for the
structural recursion.  Returns the heap afterwards together with the
list of non-null addresses passed to `delete`, in order; `delete` on a
null pointer is a no-op (so the trace also witnesses double deletion:
an address deleted while no longer live is still recorded).  Child
order follows the source: `~bin_op_expr` destroys its `unique_ptr`
members in reverse declaration order (`right_arg` then `left_arg`,
expr.hpp lines 76-78), `~if_expr` (lines 145-149) runs
`delete cond; delete true_branch; delete false_branch;`. -/
def delPtr : Nat → Heap → Option Addr → Heap × List Addr
  | _, h, none => (h, [])
  | 0, h, some _ => (h, [])
  | Nat.succ fuel, h, some a =>
      match lookupH h a with
      | none => (h, [a])
      | some .hleaf => (removeH h a, [a])
      | some (.hbin l r) =>
          let s1 := delPtr fuel (removeH h a) (some r)
          let s2 := delPtr fuel s1.1 (some l)
          (s2.1, a :: (s1.2 ++ s2.2))
      | some (.hif c t f) =>
          let s1 := delPtr fuel (removeH h a) c
          let s2 := delPtr fuel s1.1 t
          let s3 := delPtr fuel s2.1 f
          (s3.1, a :: (s1.2 ++ s2.2 ++ s3.2))

/-- The three raw pointer members of an `if_expr` object
(expr.hpp lines 133-137). -/
structure IfFields where
  cond : Option Addr
  true_branch : Option Addr
  false_branch : Option Addr
deriving DecidableEq

/-- `if_expr(const if_expr& o)` (expr.hpp lines 151-154): the copy
constructor initialises each member from the corresponding member of
`o`, i.e. it copies the three raw pointers. -/
def ifCopyCtor (o : IfFields) : IfFields :=
  ⟨o.cond, o.true_branch, o.false_branch⟩

/-- The destructor body of an `if_expr` object (expr.hpp lines
145-149): `delete cond; delete true_branch; delete false_branch;`. -/
def ifDestroy (fuel : Nat) (h : Heap) (x : IfFields) : Heap × List Addr :=
  let s1 := delPtr fuel h x.cond
  let s2 := delPtr fuel s1.1 x.true_branch
  let s3 := delPtr fuel s2.1 x.false_branch
  (s3.1, s1.2 ++ s2.2 ++ s3.2)

/-- `operator=(const if_expr& o)` (expr.hpp lines 156-168) on two
DISTINCT objects (the `&o == this` early return, line 157, does not
fire): deletes the left-hand side's three children, copies `o`'s three
pointers into the left-hand side and then nulls out all three pointers
of `o`.  Result: (new left-hand fields, new right-hand fields, heap,
delete trace). -/
def ifCopyAssign (fuel : Nat) (h : Heap) (lhs rhs : IfFields) :
    IfFields × IfFields × Heap × List Addr :=
  let d := ifDestroy fuel h lhs
  (⟨rhs.cond, rhs.true_branch, rhs.false_branch⟩, ⟨none, none, none⟩, d.1, d.2)

/-- `if_expr(if_expr&& o)` (expr.hpp lines 170-175):
`cond(std::move(o.cond))` — `std::move` of a raw pointer merely copies
it and does NOT null it in `o` — then `o.true_branch = o.false_branch
= nullptr;`.  Result: (new object's fields, `o`'s fields afterwards). -/
def ifMoveCtor (o : IfFields) : IfFields × IfFields :=
  (⟨o.cond, o.true_branch, o.false_branch⟩, ⟨o.cond, none, none⟩)

/-- `operator=(if_expr&& o)` (expr.hpp lines 177-189) on two DISTINCT
objects: deletes the left-hand side's `true_branch` and `false_branch`
(but not its old `cond`), copies `o`'s three pointers, and nulls only
`o.true_branch` and `o.false_branch` — `cond = std::move(o.cond)` again
leaves `o.cond` set.  Result: (new left-hand fields, new right-hand
fields, heap, delete trace). -/
def ifMoveAssign (fuel : Nat) (h : Heap) (lhs rhs : IfFields) :
    IfFields × IfFields × Heap × List Addr :=
  let s1 := delPtr fuel h lhs.true_branch
  let s2 := delPtr fuel s1.1 lhs.false_branch
  (⟨rhs.cond, rhs.true_branch, rhs.false_branch⟩, ⟨rhs.cond, none, none⟩,
    s2.1, s1.2 ++ s2.2)

/-- A fresh (unallocated) address. -/
def freshAddr (h : Heap) : Addr :=
  h.foldr (fun p m => max p.1 m) 0 + 1

/-- `if_expr::clone` (expr.hpp lines 207-209): `new if_expr(*this)`
allocates a fresh node whose three child pointers are copied from the
original by the copy constructor (lines 151-154). -/
def ifClone (h : Heap) (o : IfFields) : Addr × Heap :=
  (freshAddr h, (freshAddr h, HNode.hif o.cond o.true_branch o.false_branch) :: h)

/-- Whether evaluating the node at address `a` completes without
dereferencing a null or dead pointer, translated from the `eval`
methods of expr.hpp: a constant always completes (lines 53-55); a
binary node dereferences and evaluates both operands (lines 116-118);
a conditional (lines 191-196) tests the condition POINTER — without
dereferencing it — and then dereferences the selected branch pointer
with no null guard. -/
def evalOk : Nat → Heap → Addr → Bool
  | 0, _, _ => false
  | Nat.succ fuel, h, a =>
      match lookupH h a with
      | none => false
      | some .hleaf => true
      | some (.hbin l r) => evalOk fuel h l && evalOk fuel h r
      | some (.hif c t f) =>
          match (if c.isSome then t else f) with
          | none => false
          | some b => evalOk fuel h b

/-- `if_expr::eval` (expr.hpp lines 191-196) run on an `if_expr` object
with fields `x`: `if(cond)` selects `true_branch` when the condition
pointer is non-null, else `false_branch`, and dereferences the selected
branch pointer with no null guard. -/
def ifEvalOk (fuel : Nat) (h : Heap) (x : IfFields) : Bool :=
  match (if x.cond.isSome then x.true_branch else x.false_branch) with
  | none => false
  | some b => evalOk fuel h b

/-- A concrete heap of three constant nodes. -/
def h3 : Heap := [(0, .hleaf), (1, .hleaf), (2, .hleaf)]

/-- A conditional whose three children are the nodes at 0, 1 and 2. -/
def origIf : IfFields := ⟨some 0, some 1, some 2⟩

/-- A concrete heap of six constant nodes. -/
def h6 : Heap :=
  [(0, .hleaf), (1, .hleaf), (2, .hleaf), (3, .hleaf), (4, .hleaf), (5, .hleaf)]

/-- A second conditional, with children at 3, 4 and 5, used as the
assignment target so the two objects are distinct. -/
def lhsIf : IfFields := ⟨some 3, some 4, some 5⟩

/-- At tree level the code's `clone` returns a structurally identical
tree: genuine deep copies for constants and binary nodes
(expr.hpp lines 61-63 and 124-126), and for a conditional a new node
holding the same three child pointers (lines 151-154, 207-209). -/
theorem clone_eq {T : Type} : (e : Expr T) → clone e = e
  | @Expr.const_expr _ _ _ => rfl
  | .bin_op_expr _ _ l r => by rw [clone, clone_eq l, clone_eq r]
  | .if_expr _ _ _ => rfl

mutual

/-- The instrumented evaluator computes the same value as `eval`. -/
theorem evalT_fst {T : Type} : (e : Expr T) → (evalT e).1 = eval e
  | @Expr.const_expr _ _ _ => rfl
  | .bin_op_expr fn n l r => by
      have ihl := evalT_fst l
      have ihr := evalT_fst r
      rcases hl2 : evalT l with ⟨oa, tl⟩
      rcases hr2 : evalT r with ⟨ob, tr⟩
      rw [hl2] at ihl
      rw [hr2] at ihr
      simp only [evalT, eval, hl2, hr2]
      cases oa with
      | none => simp [← ihl]
      | some a =>
          cases ob with
          | none => simp [← ihl, ← ihr]
          | some b => simp [← ihl, ← ihr]
  | .if_expr c t f => by
      cases c with
      | mk e => exact evalPtrT_fst t
      | null => exact evalPtrT_fst f
termination_by structural e => e

/-- The instrumented pointer evaluator computes the same value as
`evalPtr`. -/
theorem evalPtrT_fst {T : Type} : (p : ExprPtr T) → (evalPtrT p).1 = evalPtr p
  | .null => rfl
  | .mk e => evalT_fst e
termination_by structural p => p

end

/-- C1: the claim — `if_expr::eval` first evaluates the condition
subtree and branches strictly on the resulting boolean, never touching
the non-selected branch — fails on the code.  On `ifCondFalse`, whose
condition subtree evaluates to `false`, the code returns the TRUE
branch's value 1 (the claim demands 2), because `if(cond)` tests the
condition pointer; the event trace shows that only the true branch's
constant was evaluated — the condition subtree is never evaluated at
all. -/
theorem if_eval_ignores_condition_value :
    eval condFalse = some false ∧
    eval ifCondFalse = some 1 ∧
    (evalT ifCondFalse).2 = [Ev.evalConst "1"] :=
  ⟨rfl, rfl, rfl⟩

/-- C2: the claim — `if_expr::print` renders the condition and both
branch subtrees — fails on the code.  On `ifCondFalse` the output is
the collapsed boolean literal "true" (from the condition-pointer test),
which contains none of the three sub-renderings "false", "1", "2". -/
theorem if_print_collapses_to_boolean :
    print ifCondFalse = "true" ∧
    (print ifCondFalse).data.contains 'f' = false ∧
    (print ifCondFalse).data.contains '1' = false ∧
    (print ifCondFalse).data.contains '2' = false := by
  refine ⟨rfl, ?_, ?_, ?_⟩ <;> decide

/-- C3: the claim — copy construction and `clone` of a conditional
produce independently owned recursive deep copies, so destroying the
copy leaves the original's subtrees intact — fails on the code.  The
copy constructor returns the very same three child pointers, a clone
allocated on `h3` holds the original's child addresses 0, 1, 2, and
destroying the copy deallocates all three addresses that the original
still references. -/
theorem if_copy_shares_children :
    ifCopyCtor origIf = origIf ∧
    lookupH (ifClone h3 origIf).2 (ifClone h3 origIf).1 =
      some (HNode.hif (some 0) (some 1) (some 2)) ∧
    (ifDestroy 10 h3 (ifCopyCtor origIf)).1 = [] ∧
    (ifDestroy 10 h3 (ifCopyCtor origIf)).2 = [0, 1, 2] ∧
    origIf = ⟨some 0, some 1, some 2⟩ := by
  refine ⟨rfl, ?_, ?_, ?_, rfl⟩ <;> decide

/-- C4: the claim — copy assignment between distinct conditionals
leaves the source's pointers referring to the same live subtrees —
fails on the code.  Assigning `lhsIf = origIf` (distinct objects, on
heap `h6`) nulls out all three pointers of the source `origIf` (a move
disguised as a copy); only the target's old children 3, 4, 5 are
deleted, and the source's subtrees 0, 1, 2 stay live but orphaned from
the source object. -/
theorem if_copy_assign_mutates_source :
    (ifCopyAssign 10 h6 lhsIf origIf).2.1 = ⟨none, none, none⟩ ∧
    origIf ≠ ⟨none, none, none⟩ ∧
    (ifCopyAssign 10 h6 lhsIf origIf).2.2.2 = [3, 4, 5] ∧
    lookupH (ifCopyAssign 10 h6 lhsIf origIf).2.2.1 0 = some HNode.hleaf := by
  refine ⟨rfl, ?_, ?_, ?_⟩ <;> decide

/-- C5: the claim — a moved-from conditional is left with all three
child pointers null, so destroying it destroys nothing further and no
child is destroyed twice — fails on the code.  `std::move` on the raw
`cond` pointer does not null it, so after move-construction from
`origIf` the moved-from object still holds `cond = 0`; destroying the
new object and then the moved-from object passes address 0 to `delete`
twice.  Move assignment leaves its source in the same state. -/
theorem if_move_leaves_condition_owned_twice :
    (ifMoveCtor origIf).2 = ⟨some 0, none, none⟩ ∧
    (ifDestroy 10 h3 (ifMoveCtor origIf).1).2 ++
      (ifDestroy 10 (ifDestroy 10 h3 (ifMoveCtor origIf).1).1
        (ifMoveCtor origIf).2).2 = [0, 1, 2, 0] ∧
    (ifMoveAssign 10 h6 lhsIf origIf).2.1 = ⟨some 0, none, none⟩ := by
  refine ⟨rfl, ?_, rfl⟩
  decide

/-- C6: for every binary operator node built from operands `l`, `r`,
function `fn` and name `n`, `eval` returns `fn` applied to the two
operand values (whenever both operand evaluations return), and `print`
renders exactly "(", the left rendering, a space, the name, a space,
the right rendering and ")". -/
theorem bin_op_eval_print {T A B : Type} (fn : A → B → Option T) (n : String)
    (l : Expr A) (r : Expr B) (x : A) (y : B)
    (hl : eval l = some x) (hr : eval r = some y) :
    eval (Expr.bin_op_expr fn n l r) = fn x y ∧
    print (Expr.bin_op_expr fn n l r) =
      "(" ++ print l ++ " " ++ n ++ " " ++ print r ++ ")" := by
  refine ⟨?_, rfl⟩
  simp [eval, hl, hr]

/-- Witness for C6 at the driver's `2 + 2` node. -/
theorem bin_op_eval_print_witness :
    eval (Expr.bin_op_expr plus "+" (Expr.const_expr (2 : Int))
      (Expr.const_expr (2 : Int))) = plus 2 2 ∧
    print (Expr.bin_op_expr plus "+" (Expr.const_expr (2 : Int))
      (Expr.const_expr (2 : Int))) =
      "(" ++ print (Expr.const_expr (2 : Int)) ++ " " ++ "+" ++ " " ++
        print (Expr.const_expr (2 : Int)) ++ ")" :=
  bin_op_eval_print plus "+" (Expr.const_expr (2 : Int))
    (Expr.const_expr (2 : Int)) 2 2 rfl rfl

/-- C7: clone round-trip — for every node of any variant, the clone
evaluates to the same value and prints the same rendering as the
original. -/
theorem clone_roundtrip {T : Type} (e : Expr T) :
    eval (clone e) = eval e ∧ print (clone e) = print e := by
  rw [clone_eq]
  exact ⟨rfl, rfl⟩

/-- C8: the claim — the driver's scenario-3 tree `(8 * 5) == 40`
evaluates to true — fails on the code: `mult` is declared with return
type `bool`, so the product 40 collapses to `true` and back to 1 in the
`std::function<int(int,int)>` slot, and `equals(1, 40)` is `false`.
The wrapping conditional still evaluates to "correct", but only because
`if_expr::eval` tests the condition pointer instead of its value. -/
theorem scenario3_eval :
    multAsInt 8 5 = some 1 ∧
    eval my_expr = some false ∧
    eval my_expr_two = some "correct" :=
  ⟨rfl, rfl, rfl⟩

/-- C10: `if_expr::eval` dereferences the selected branch pointer with
no null guard (and its destructor deletes all three pointers, which is
harmless for null ones).  Under the precondition that the condition and
both branch pointers are non-null, the null dereference is unreachable:
evaluation reduces to evaluating the (always-)selected true branch.
But the precondition is violable through the public interface: after
move-construction from `origIf` the moved-from object has both branch
pointers null while its condition pointer is still set, so the pointer
test selects the true branch and evaluation dereferences null. -/
theorem if_eval_null_guard :
    (∀ (fuel : Nat) (h : Heap) (x : IfFields) (t : Addr),
      x.cond.isSome = true → x.true_branch = some t →
      x.false_branch.isSome = true →
      ifEvalOk fuel h x = evalOk fuel h t) ∧
    (∀ (fuel : Nat) (h : Heap), ifDestroy fuel h ⟨none, none, none⟩ = (h, [])) ∧
    ((ifMoveCtor origIf).2.cond.isSome = true ∧
      (ifMoveCtor origIf).2.true_branch = none ∧
      (ifMoveCtor origIf).2.false_branch = none ∧
      ∀ (fuel : Nat) (h : Heap), ifEvalOk fuel h (ifMoveCtor origIf).2 = false) := by
  refine ⟨?_, ?_, rfl, rfl, rfl, ?_⟩
  · intro fuel h x t hc ht _
    simp [ifEvalOk, hc, ht]
  · intro fuel h
    simp [ifDestroy, delPtr]
  · intro fuel h
    rfl

/-- Witness for C10 on the concrete heap `h3`. -/
theorem if_eval_null_guard_witness :
    ifEvalOk 5 h3 origIf = evalOk 5 h3 1 ∧
    ifDestroy 7 h3 ⟨none, none, none⟩ = (h3, []) ∧
    ifEvalOk 5 h3 (ifMoveCtor origIf).2 = false :=
  ⟨if_eval_null_guard.1 5 h3 origIf 1 rfl rfl rfl,
    if_eval_null_guard.2.1 7 h3,
    if_eval_null_guard.2.2.2.2.2 5 h3⟩

end ExprSpec
